import Mathlib

/-
Verification of the AppleMIDI (RTP-MIDI) session participant of mt32-pi
(src/net/applemidi.cpp, include/net/applemidi.h).

The development shallowly embeds the codec layer (ParseInvitationPacket,
ParseEndSessionPacket, ParseSyncPacket, ParseMIDIPacket and the frame
serializers used by SendAcceptInvitationPacket, SendSyncPacket,
SendFeedbackPacket) and the session state machine of
CAppleMIDIParticipant (Run / ControlInvitationState / MIDIInvitationState /
ConnectedState / Reset).

Buffers are lists of natural numbers; every memory read goes through
byteAt, which reduces modulo 256 (a u8 load).  Machine integers are
naturals reduced modulo 2^16 / 2^32 / 2^64 exactly where the fixed-width
arithmetic of the C code can wrap.  Each call to GetSyncClock inside one
loop iteration is modelled by its own input value (now1, now2, now3, in
call order), each UDP send outcome by a boolean input, and the random
source by an input value.  Observable effects of a tick (frames handed to
SendPacket, payloads handed to the MIDI receive handler) are collected in
an event list.
-/

namespace AppleMIDI

/-- 2^32, the modulus of the u32 fields. -/
def U32 : Nat := 4294967296

/-- 2^64, the modulus of the u64 fields. -/
def U64 : Nat := 18446744073709551616

/-- Timeout period for sync packets: 60 seconds in 100 microsecond units. -/
def SyncTimeout : Nat := 600000

/-- Receiver feedback packet frequency: 1 second in 100 microsecond units. -/
def ReceiverFeedbackPeriod : Nat := 10000

/-- CommandWord from applemidi.cpp: two ASCII characters packed big-endian. -/
def CommandWord (a b : Nat) : Nat := a * 256 + b

/-- Command word "IN". -/
def Invitation : Nat := CommandWord 73 78

/-- Command word "OK". -/
def InvitationAccepted : Nat := CommandWord 79 75

/-- Command word "CK". -/
def Sync : Nat := CommandWord 67 75

/-- Command word "RS". -/
def ReceiverFeedback : Nat := CommandWord 82 83

/-- Command word "BY". -/
def EndSession : Nat := CommandWord 66 89

/-- AppleMIDISignature = 0xFFFF. -/
def AppleMIDISignature : Nat := 0xFFFF

/-- AppleMIDIVersion = 2. -/
def AppleMIDIVersion : Nat := 2

/-- RTPMIDIPayloadType = 0x61. -/
def RTPMIDIPayloadType : Nat := 0x61

/-- RTPMIDIVersion = 2. -/
def RTPMIDIVersion : Nat := 2

/-- A u8 load from the receive buffer at offset i (0 beyond the bytes held). -/
def byteAt (buf : List Nat) (i : Nat) : Nat := buf.getD i 0 % 256

/-- Big-endian u16 read (ntohs of the two bytes at offset i). -/
def readU16 (buf : List Nat) (i : Nat) : Nat := byteAt buf i * 256 + byteAt buf (i + 1)

/-- Big-endian u32 read (ntohl of the four bytes at offset i). -/
def readU32 (buf : List Nat) (i : Nat) : Nat := readU16 buf i * 65536 + readU16 buf (i + 2)

/-- Big-endian u64 read (ntohll of the eight bytes at offset i). -/
def readU64 (buf : List Nat) (i : Nat) : Nat := readU32 buf i * U32 + readU32 buf (i + 4)

/-- The wrapping u64 difference now - last as computed by the unsigned
subtraction the C code applies to clock values. -/
def elapsed64 (now last : Nat) : Nat := (now % U64 + (U64 - last % U64)) % U64

/-- TAppleMIDIInvitation, with the Name array abstracted to its
NUL-terminated content. -/
structure TAppleMIDIInvitation where
  nSignature : Nat
  nCommand : Nat
  nVersion : Nat
  nInitiatorToken : Nat
  nSSRC : Nat
  Name : List Nat
deriving DecidableEq, Repr

/-- TAppleMIDIEndSession. -/
structure TAppleMIDIEndSession where
  nSignature : Nat
  nCommand : Nat
  nVersion : Nat
  nInitiatorToken : Nat
  nSSRC : Nat
deriving DecidableEq, Repr

/-- TAppleMIDISync, with nTimestamps[0], nTimestamps[1], nTimestamps[2]
named t1, t2, t3. -/
structure TAppleMIDISync where
  nSignature : Nat
  nCommand : Nat
  nSSRC : Nat
  nCount : Nat
  t1 : Nat
  t2 : Nat
  t3 : Nat
deriving DecidableEq, Repr

/-- TAppleMIDIReceiverFeedback. -/
structure TAppleMIDIReceiverFeedback where
  nSignature : Nat
  nCommand : Nat
  nSSRC : Nat
  nSequence : Nat
deriving DecidableEq, Repr

/-- TRTPHeader. -/
structure TRTPHeader where
  nFlags : Nat
  nSequence : Nat
  nTimestamp : Nat
  nSSRC : Nat
deriving DecidableEq, Repr

/-- Result of ParseMIDIPacket: the RTP header together with the returned
pair (pOutMIDIData, pOutMIDIDataSize), the pointer expressed as an offset
into the receive buffer. -/
structure TRTPMIDIResult where
  header : TRTPHeader
  payloadStart : Nat
  payloadLen : Nat
deriving DecidableEq, Repr

/-- The byte content of "<unknown>". -/
def unknownName : List Nat := [60, 117, 110, 107, 110, 111, 119, 110, 62]

/-- The name strncpy extracts from offset 16 of an invitation buffer:
at most 256 bytes, up to the first NUL. -/
def parsedName (buf : List Nat) : List Nat :=
  (((buf.drop 16).take 256).map (fun b => b % 256)).takeWhile (fun b => b != 0)

/-- ParseInvitationPacket (applemidi.cpp lines 125-158).  The size
threshold nSizeWithoutName is 16.  Returns none exactly where the C
function returns false. -/
def parseInvitationPacket (buf : List Nat) (nSize : Nat) : Option TAppleMIDIInvitation :=
  if nSize < 16 then none
  else if readU16 buf 0 ≠ AppleMIDISignature then none
  else if readU16 buf 2 ≠ Invitation then none
  else if readU32 buf 4 ≠ AppleMIDIVersion then none
  else some ⟨readU16 buf 0, readU16 buf 2, readU32 buf 4, readU32 buf 8, readU32 buf 12,
    if 16 < nSize then parsedName buf else unknownName⟩

/-- ParseEndSessionPacket (applemidi.cpp lines 160-187).
sizeof(TAppleMIDIEndSession) = 16. -/
def parseEndSessionPacket (buf : List Nat) (nSize : Nat) : Option TAppleMIDIEndSession :=
  if nSize < 16 then none
  else if readU16 buf 0 ≠ AppleMIDISignature then none
  else if readU16 buf 2 ≠ EndSession then none
  else if readU32 buf 4 ≠ AppleMIDIVersion then none
  else some ⟨readU16 buf 0, readU16 buf 2, readU32 buf 4, readU32 buf 8, readU32 buf 12⟩

/-- ParseSyncPacket (applemidi.cpp lines 189-211).
sizeof(TAppleMIDISync) = 36, and the size must match exactly. -/
def parseSyncPacket (buf : List Nat) (nSize : Nat) : Option TAppleMIDISync :=
  if nSize ≠ 36 then none
  else if readU16 buf 0 ≠ AppleMIDISignature then none
  else if readU16 buf 2 ≠ Sync then none
  else some ⟨readU16 buf 0, readU16 buf 2, readU32 buf 4, byteAt buf 8,
    readU64 buf 12, readU64 buf 20, readU64 buf 28⟩

/-- The RTP-MIDI variable-length header decode (applemidi.cpp lines
239-251): start offset of the MIDI data and the declared length, before
the SysEx fixup.  The length is a u16; with the B flag set it is 12 bits
wide. -/
def rawRegion (buf : List Nat) : Nat × Nat :=
  let nHeader := byteAt buf 12
  if 128 ≤ nHeader then (14, nHeader % 16 * 256 + byteAt buf 13)
  else (13, nHeader % 16)

/-- The SysEx boundary fixup (applemidi.cpp lines 253-276).  The length
adjustments are u16 decrements, hence the mod-65536 wrap; the tail index
p + len - 1 is the C pointer expression pMIDIData + nMIDIDataSize - 1
(for len = 0 it reads the byte before the payload). -/
def sysexFixup (buf : List Nat) (p len : Nat) : Nat × Nat :=
  let nHead := byteAt buf p
  let nTail := byteAt buf (p + len - 1)
  if nHead = 0xF0 ∧ nTail = 0xF0 then (p, (len + 65535) % 65536)
  else if nHead = 0xF7 ∧ nTail = 0xF0 then (p + 1, (len + 65534) % 65536)
  else if nHead = 0xF7 ∧ nTail = 0xF7 then (p + 1, (len + 65535) % 65536)
  else if nHead = 0xF7 ∧ nTail = 0xF4 then (p, 1)
  else (p, len)

/-- ParseMIDIPacket (applemidi.cpp lines 213-282).  Note the C function
never reads its nSize argument, so the model takes only the buffer. -/
def parseMIDIPacket (buf : List Nat) : Option TRTPMIDIResult :=
  let nRTPFlags := readU16 buf 0
  if nRTPFlags / 16384 % 4 ≠ RTPMIDIVersion then none
  else if nRTPFlags / 256 % 16 ≠ 0 then none
  else if nRTPFlags % 256 ≠ RTPMIDIPayloadType then none
  else
    let r := rawRegion buf
    let f := sysexFixup buf r.1 r.2
    some ⟨⟨nRTPFlags, readU16 buf 2, readU32 buf 4, readU32 buf 8⟩, f.1, f.2⟩

/-- The bytes of the buffer region [p, p + len), as the MIDI receive
handler sees them. -/
def regionBytes (buf : List Nat) (p len : Nat) : List Nat :=
  (List.range len).map (fun i => byteAt buf (p + i))

/-- Big-endian serialization of a u16 (htons). -/
def u16be (n : Nat) : List Nat := [n / 256 % 256, n % 256]

/-- Big-endian serialization of a u32 (htonl). -/
def u32be (n : Nat) : List Nat := [n / 16777216 % 256, n / 65536 % 256, n / 256 % 256, n % 256]

/-- Big-endian serialization of a u64 (htonll). -/
def u64be (n : Nat) : List Nat := u32be (n / U32) ++ u32be n

/-- Wire bytes of an invitation-layout frame, as written by
SendAcceptInvitationPacket (applemidi.cpp lines 598-620): htons/htonl
header fields, then the name and its terminating NUL (the send size is
16 + strlen(Name) + 1).  Generalized over the command word: the source
sends this layout only with command "OK"; its use with command "IN" is
the same layout per spec section 4.1 (the participant itself never sends
an IN frame). -/
def encodeInvitationBytes (cmd token ssrc : Nat) (name : List Nat) : List Nat :=
  u16be AppleMIDISignature ++ u16be cmd ++ u32be AppleMIDIVersion ++
    u32be token ++ u32be ssrc ++ name ++ [0]

/-- Modelled from the spec: the participant never sends a BY frame; spec
section 4.1 gives the 16-byte layout (signature, command, version,
initiator token, SSRC, no name). -/
def encodeEndSessionBytes (token ssrc : Nat) : List Nat :=
  u16be AppleMIDISignature ++ u16be EndSession ++ u32be AppleMIDIVersion ++
    u32be token ++ u32be ssrc

/-- Wire bytes of a CK frame, as written by SendSyncPacket (applemidi.cpp
lines 622-644): signature, command, SSRC, count byte, three padding
bytes, three u64 timestamps.  Generalized over count and the timestamps
(the source instantiates count = 1 and timestamp3 = 0). -/
def encodeSyncBytes (ssrc count t1 t2 t3 : Nat) : List Nat :=
  u16be AppleMIDISignature ++ u16be Sync ++ u32be ssrc ++ [count % 256, 0, 0, 0] ++
    u64be t1 ++ u64be t2 ++ u64be t3

/-- Wire bytes of an RS frame, as written by SendFeedbackPacket
(applemidi.cpp lines 646-662). -/
def encodeFeedbackBytes (ssrc seq32 : Nat) : List Nat :=
  u16be AppleMIDISignature ++ u16be ReceiverFeedback ++ u32be ssrc ++ u32be seq32

/-- Modelled from the spec: decoder for an OK (invitation accepted)
frame.  ParseInvitationPacket in the source accepts only command "IN";
the OK frame has the same layout (spec section 4.1), so this decoder is
ParseInvitationPacket with the command check replaced by "OK". -/
def parseAcceptedPacket (buf : List Nat) (nSize : Nat) : Option TAppleMIDIInvitation :=
  if nSize < 16 then none
  else if readU16 buf 0 ≠ AppleMIDISignature then none
  else if readU16 buf 2 ≠ InvitationAccepted then none
  else if readU32 buf 4 ≠ AppleMIDIVersion then none
  else some ⟨readU16 buf 0, readU16 buf 2, readU32 buf 4, readU32 buf 8, readU32 buf 12,
    if 16 < nSize then parsedName buf else unknownName⟩

/-- Modelled from the spec: decoder for an RS (receiver feedback) frame,
which the source never parses.  Spec section 4.1: fixed 12 bytes,
signature, command "RS", sender SSRC, sequence word. -/
def parseFeedbackPacket (buf : List Nat) (nSize : Nat) : Option TAppleMIDIReceiverFeedback :=
  if nSize ≠ 12 then none
  else if readU16 buf 0 ≠ AppleMIDISignature then none
  else if readU16 buf 2 ≠ ReceiverFeedback then none
  else some ⟨readU16 buf 0, readU16 buf 2, readU32 buf 4, readU32 buf 8⟩

/-- The three states of the participant state machine. -/
inductive TState where
  | ControlInvitation
  | MIDIInvitation
  | Connected
deriving DecidableEq, Repr

/-- The member fields of CAppleMIDIParticipant touched by the session
logic.  The peer address is opaque (a Nat). -/
structure Participant where
  state : TState
  initiatorIPAddress : Nat
  nInitiatorControlPort : Nat
  nInitiatorMIDIPort : Nat
  nInitiatorToken : Nat
  nInitiatorSSRC : Nat
  nSSRC : Nat
  nLastMIDISequenceNumber : Nat
  nOffsetEstimate : Nat
  nLastSyncTime : Nat
  nSequence : Nat
  nLastFeedbackSequence : Nat
  nLastFeedbackTime : Nat
deriving DecidableEq, Repr

/-- Observable effects of one loop iteration: frames handed to
SendPacket (recorded with the socket chosen by the caller and the
destination port) and payload regions handed to the MIDI receive
handler. -/
inductive Event where
  | sendAcceptInv (viaMIDISocket : Bool) (nPort nToken nSSRC : Nat)
  | sendSync (nSSRC t1 t2 : Nat)
  | sendFeedback (nSSRC nSequence32 : Nat)
  | sinkDeliver (bytes : List Nat)
deriving DecidableEq, Repr

/-- The environment of one iteration of Run: the two non-blocking
receives (result is the datagram length, 0 when nothing is pending,
together with the datagram bytes and source address/port), the random
number, up to three GetSyncClock samples in call order, and the outcome
of each possible UDP send. -/
structure TickInput where
  controlResult : Nat
  controlBuffer : List Nat
  controlSrcIP : Nat
  controlSrcPort : Nat
  midiResult : Nat
  midiBuffer : List Nat
  midiSrcIP : Nat
  midiSrcPort : Nat
  random : Nat
  now1 : Nat
  now2 : Nat
  now3 : Nat
  controlSendOk : Bool
  midiSendOk : Bool
  syncSendOk : Bool
  feedbackSendOk : Bool
deriving DecidableEq, Repr

/-- Reset (applemidi.cpp lines 556-571): back to ControlInvitation and
zero the nine session fields.  The peer address and the two peer ports
are not touched by Reset. -/
def resetParticipant (st : Participant) : Participant :=
  { st with
    state := TState.ControlInvitation
    nInitiatorToken := 0
    nInitiatorSSRC := 0
    nSSRC := 0
    nLastMIDISequenceNumber := 0
    nOffsetEstimate := 0
    nLastSyncTime := 0
    nSequence := 0
    nLastFeedbackSequence := 0
    nLastFeedbackTime := 0 }

/-- The field assignments of ControlInvitationState before the accept
send (applemidi.cpp lines 420-422): initiator token, initiator SSRC and
the freshly minted local SSRC (a u32 from the random source). -/
def controlAccepted (st : Participant) (inp : TickInput) (pkt : TAppleMIDIInvitation) :
    Participant :=
  { st with
    nInitiatorToken := pkt.nInitiatorToken
    nInitiatorSSRC := pkt.nSSRC
    nSSRC := inp.random % U32 }

/-- ControlInvitationState (applemidi.cpp lines 401-432). -/
def controlInvitationState (st : Participant) (inp : TickInput) : Participant × List Event :=
  if inp.controlResult = 0 then (st, [])
  else
    match parseInvitationPacket inp.controlBuffer inp.controlResult with
    | none => (st, [])
    | some pkt =>
      let st1 := controlAccepted st inp pkt
      let evs := [Event.sendAcceptInv false st1.nInitiatorControlPort st1.nInitiatorToken st1.nSSRC]
      if inp.controlSendOk then
        ({ st1 with nLastSyncTime := inp.now1, state := TState.MIDIInvitation }, evs)
      else (st1, evs)

/-- MIDIInvitationState (applemidi.cpp lines 434-473).  A valid IN on
the data endpoint is answered with OK on the MIDI socket; send success
enters Connected, send failure calls Reset; with no data-port datagram a
sync-clock lapse beyond SyncTimeout calls Reset. -/
def midiInvitationState (st : Participant) (inp : TickInput) : Participant × List Event :=
  if 0 < inp.midiResult then
    match parseInvitationPacket inp.midiBuffer inp.midiResult with
    | none => (st, [])
    | some _pkt =>
      let evs := [Event.sendAcceptInv true st.nInitiatorMIDIPort st.nInitiatorToken st.nSSRC]
      if inp.midiSendOk then
        ({ st with nLastSyncTime := inp.now1, state := TState.Connected }, evs)
      else (resetParticipant st, evs)
  else if SyncTimeout < elapsed64 inp.now1 st.nLastSyncTime then (resetParticipant st, [])
  else (st, [])

/-- The data-endpoint dispatch of ConnectedState (applemidi.cpp lines
503-535): an RTP-MIDI packet updates the rx sequence and feeds the
receive handler; otherwise a CK frame from the initiator SSRC with
count 0 or 2 is acted on (count 0 answers with a count-1 sync frame
carrying timestamp1 and the clock, count 2 computes the u64 offset
estimate) and stamps the sync time; anything else changes nothing. -/
def connectedMIDIStep (st : Participant) (inp : TickInput) : Participant × List Event :=
  if inp.midiResult = 0 then (st, [])
  else
    match parseMIDIPacket inp.midiBuffer with
    | some r =>
      ({ st with nSequence := r.header.nSequence },
        [Event.sinkDeliver (regionBytes inp.midiBuffer r.payloadStart r.payloadLen)])
    | none =>
      match parseSyncPacket inp.midiBuffer inp.midiResult with
      | some ck =>
        if ck.nSSRC = st.nInitiatorSSRC ∧ (ck.nCount = 0 ∨ ck.nCount = 2) then
          if ck.nCount = 0 then
            ({ st with nLastSyncTime := inp.now2 }, [Event.sendSync st.nSSRC ck.t1 inp.now1])
          else
            ({ st with
                nOffsetEstimate :=
                  ((ck.t3 % U64 + ck.t1 % U64) % U64 / 2 + (U64 - ck.t2 % U64)) % U64
                nLastSyncTime := inp.now2 }, [])
        else (st, [])
      | none => (st, [])

/-- The receiver feedback block of ConnectedState (applemidi.cpp lines
539-547), evaluated at the clock sample nTicks. -/
def feedbackStep (st : Participant) (nTicks : Nat) : Participant × List Event :=
  if ReceiverFeedbackPeriod < elapsed64 nTicks st.nLastFeedbackTime then
    if st.nSequence ≠ st.nLastFeedbackSequence then
      ({ st with nLastFeedbackSequence := st.nSequence, nLastFeedbackTime := nTicks },
        [Event.sendFeedback st.nSSRC (st.nSequence % 65536 * 65536)])
    else ({ st with nLastFeedbackTime := nTicks }, [])
  else (st, [])

/-- The liveness timeout of ConnectedState (applemidi.cpp lines
549-553). -/
def timeoutStep (st : Participant) (nTicks : Nat) : Participant :=
  if SyncTimeout < elapsed64 nTicks st.nLastSyncTime then resetParticipant st else st

/-- The end-session test of ConnectedState (applemidi.cpp lines
486-500): the control datagram decodes as BY and its SSRC equals the
initiator SSRC. -/
def byAccepted (st : Participant) (inp : TickInput) : Bool :=
  match parseEndSessionPacket inp.controlBuffer inp.controlResult with
  | some pkt => pkt.nSSRC == st.nInitiatorSSRC
  | none => false

/-- ConnectedState (applemidi.cpp lines 475-554).  An accepted BY resets
and returns at once; otherwise the data endpoint is dispatched, then the
feedback block and the timeout check run on the clock sample taken after
the dispatch (now3). -/
def connectedState (st : Participant) (inp : TickInput) : Participant × List Event :=
  if 0 < inp.controlResult ∧ byAccepted st inp then (resetParticipant st, [])
  else
    let m := connectedMIDIStep st inp
    let f := feedbackStep m.1 inp.now3
    (timeoutStep f.1 inp.now3, m.2 ++ f.2)

/-- The two ReceiveFrom calls at the top of Run (applemidi.cpp lines
369-379): each datagram that arrived overwrites the stored peer address
and the respective peer port. -/
def receivePhase (st : Participant) (inp : TickInput) : Participant :=
  let st1 :=
    if 0 < inp.controlResult then
      { st with initiatorIPAddress := inp.controlSrcIP, nInitiatorControlPort := inp.controlSrcPort }
    else st
  if 0 < inp.midiResult then
    { st1 with initiatorIPAddress := inp.midiSrcIP, nInitiatorMIDIPort := inp.midiSrcPort }
  else st1

/-- One iteration of the Run loop (applemidi.cpp lines 359-399):
receive, then dispatch on the state. -/
def runTick (st : Participant) (inp : TickInput) : Participant × List Event :=
  let st1 := receivePhase st inp
  match st1.state with
  | TState.ControlInvitation => controlInvitationState st1 inp
  | TState.MIDIInvitation => midiInvitationState st1 inp
  | TState.Connected => connectedState st1 inp

/-- The member initialization of the constructor (applemidi.cpp lines
284-316): every session field starts at zero, in state
ControlInvitation. -/
def initParticipant : Participant :=
  ⟨TState.ControlInvitation, 0, 0, 0, 0, 0, 0, 0, 0, 0, 0, 0, 0⟩

/-- The participant state after running the ticks of inps in order from
the initial state. -/
def stateAfter (inps : List TickInput) : Participant :=
  inps.foldl (fun st inp => (runTick st inp).1) initParticipant

/-- A tick input carrying no datagram, used as the getD default when
indexing a trace. -/
def nilTick : TickInput := ⟨0, [], 0, 0, 0, [], 0, 0, 0, 0, 0, 0, false, false, false, false⟩

/-- The events of the i-th tick of a trace. -/
def eventsAt (inps : List TickInput) (i : Nat) : List Event :=
  (runTick (stateAfter (inps.take i)) (inps.getD i nilTick)).2

/-- An 18-byte IN frame: signature FFFF, command "IN", version 2,
token 7, SSRC 9, name "A". -/
def inDemoBytes : List Nat := [255, 255, 73, 78, 0, 0, 0, 2, 0, 0, 0, 7, 0, 0, 0, 9, 65, 0]

/-- Tick: the IN frame arrives on the control port from peer IP 1 port
100; the accept send succeeds; the clock reads 11. -/
def tick1demo : TickInput := ⟨18, inDemoBytes, 1, 100, 0, [], 0, 0, 42, 11, 0, 0, true, true, true, true⟩

/-- Tick: the same IN frame arrives on the data port, but from peer
IP 2 port 200; the accept send succeeds; the clock reads 12. -/
def tick2demo : TickInput := ⟨0, [], 0, 0, 18, inDemoBytes, 2, 200, 0, 12, 0, 0, true, true, true, true⟩

/-- A participant waiting in MIDIInvitation with a live session: peer
IP 1, ports 100/200, token 7, initiator SSRC 9, local SSRC 42. -/
def stMIDIInvDemo : Participant := ⟨TState.MIDIInvitation, 1, 100, 200, 7, 9, 42, 0, 0, 11, 0, 0, 0⟩

/-- Tick: a data-port IN arrives but the accept send fails. -/
def midiFailTick : TickInput := ⟨0, [], 0, 0, 18, inDemoBytes, 1, 200, 0, 12, 0, 0, true, false, true, true⟩

/-- A connected participant: initiator SSRC 9, local SSRC 42, rx
sequence 5 not yet acknowledged (last feedback sequence 0). -/
def stConnDemo : Participant := ⟨TState.Connected, 1, 100, 200, 7, 9, 42, 0, 0, 50, 5, 0, 0⟩

/-- A CK frame with count 2 from SSRC 9, timestamps 1000/2000/1200. -/
def ckDemoBytes : List Nat := encodeSyncBytes 9 2 1000 2000 1200

/-- Tick: the count-2 CK frame arrives on the data port; the clock
samples are 13, 14, 15. -/
def ckDemoTick : TickInput := ⟨0, [], 0, 0, 36, ckDemoBytes, 1, 200, 0, 13, 14, 15, true, true, true, true⟩

/-- A CK frame with count 0 from SSRC 9, timestamp1 1000. -/
def ck0DemoBytes : List Nat := encodeSyncBytes 9 0 1000 0 0

/-- Tick: the count-0 CK frame arrives on the data port. -/
def ck0DemoTick : TickInput := ⟨0, [], 0, 0, 36, ck0DemoBytes, 1, 200, 0, 13, 14, 15, true, true, true, true⟩

/-- Tick: no datagrams; the clock reads 20000 at every sample. -/
def quietTick : TickInput := ⟨0, [], 0, 0, 0, [], 0, 0, 0, 20000, 20000, 20000, true, true, true, true⟩

/-- An RTP-MIDI packet whose payload F7 F4 is a cancelled SysEx segment
(payload header 0x02). -/
def cancDemoBytes : List Nat := [0x80, 0x61, 0, 0, 0, 0, 0, 0, 0, 0, 0, 0, 0x02, 0xF7, 0xF4]

/-- An RTP-MIDI packet whose payload F7 11 22 33 F0 is a middle SysEx
segment (payload header 0x05). -/
def midDemoBytes : List Nat :=
  [0x80, 0x61, 0, 0, 0, 0, 0, 0, 0, 0, 0, 0, 0x05, 0xF7, 0x11, 0x22, 0x33, 0xF0]

/-- A 13-byte RTP-MIDI datagram whose payload header declares 15 payload
bytes that are not present. -/
def shortDemoBytes : List Nat := [0x80, 0x61, 0, 0, 0, 0, 0, 0, 0, 0, 0, 0, 0x0F]

set_option maxHeartbeats 2000000

theorem takeWhile_append_all {p : Nat → Bool} {l1 l2 : List Nat} (h : ∀ a ∈ l1, p a = true) :
    (l1 ++ l2).takeWhile p = l1 ++ l2.takeWhile p := by
  induction l1 with
  | nil => simp
  | cons a l ih =>
    have ha : p a = true := h a (by simp)
    have ih2 := ih (fun b hb => h b (by simp [hb]))
    simp [List.takeWhile_cons, ha, ih2]

theorem parsedName_encode (cmd token ssrc : Nat) (name : List Nat)
    (hb : ∀ b ∈ name, b ≠ 0 ∧ b < 256) (hlen : name.length ≤ 255) :
    parsedName (encodeInvitationBytes cmd token ssrc name) = name := by
  have hdrop : (encodeInvitationBytes cmd token ssrc name).drop 16 = name ++ [0] := by
    simp only [encodeInvitationBytes, u16be, u32be, List.cons_append, List.nil_append]
    rfl
  have htake : (name ++ [0]).take 256 = name ++ [0] := by
    apply List.take_of_length_le
    simp; omega
  have hmap : (name ++ [0]).map (fun b => b % 256) = name ++ [0] := by
    simp only [List.map_append]
    have h2 : name.map (fun b => b % 256) = name.map id :=
      List.map_congr_left (fun a ha => Nat.mod_eq_of_lt (hb a ha).2)
    rw [h2, List.map_id]
    rfl
  have hw : (name ++ [0]).takeWhile (fun b => b != 0) = name := by
    rw [takeWhile_append_all (fun a ha => by simp [(hb a ha).1])]
    simp
  rw [parsedName, hdrop, htake, hmap, hw]

theorem parseSyncPacket_size {buf : List Nat} {n : Nat} {ck : TAppleMIDISync}
    (h : parseSyncPacket buf n = some ck) : n = 36 := by
  by_contra hn
  simp [parseSyncPacket, hn] at h

theorem parseSyncPacket_sig {buf : List Nat} {n : Nat} {ck : TAppleMIDISync}
    (h : parseSyncPacket buf n = some ck) : readU16 buf 0 = AppleMIDISignature := by
  unfold parseSyncPacket at h
  split_ifs at h <;> simp_all

theorem parseMIDIPacket_sig_none {buf : List Nat}
    (h : readU16 buf 0 = AppleMIDISignature) : parseMIDIPacket buf = none := by
  simp [parseMIDIPacket, h, AppleMIDISignature, RTPMIDIVersion]

theorem byteAt_lt (buf : List Nat) (i : Nat) : byteAt buf i < 256 := by
  unfold byteAt
  exact Nat.mod_lt _ (by omega)

theorem rawRegion_len_lt (buf : List Nat) : (rawRegion buf).2 < 4096 := by
  have h12 : byteAt buf 12 % 16 < 16 := Nat.mod_lt _ (by omega)
  have h13 : byteAt buf 13 < 256 := byteAt_lt buf 13
  simp only [rawRegion]
  split_ifs <;> dsimp only <;> omega

theorem parseMIDIPacket_region {buf : List Nat} {r : TRTPMIDIResult}
    (h : parseMIDIPacket buf = some r) :
    r.payloadStart = (sysexFixup buf (rawRegion buf).1 (rawRegion buf).2).1 ∧
    r.payloadLen = (sysexFixup buf (rawRegion buf).1 (rawRegion buf).2).2 := by
  simp only [parseMIDIPacket] at h
  split_ifs at h <;>
    first
      | exact Option.noConfusion h
      | (cases Option.some.inj h; exact ⟨rfl, rfl⟩)

theorem regionBytes_succ (buf : List Nat) (p k : Nat) :
    regionBytes buf p (k + 1) = regionBytes buf p k ++ [byteAt buf (p + k)] := by
  unfold regionBytes
  rw [List.range_succ]
  simp

theorem regionBytes_dropLast (buf : List Nat) (p k : Nat) :
    (regionBytes buf p (k + 1)).dropLast = regionBytes buf p k := by
  rw [regionBytes_succ]
  simp

theorem regionBytes_tail (buf : List Nat) (p k : Nat) :
    (regionBytes buf p (k + 1)).drop 1 = regionBytes buf (p + 1) k := by
  unfold regionBytes
  rw [List.range_succ_eq_map]
  simp only [List.map_cons, List.drop_succ_cons, List.drop_zero, List.map_map]
  apply List.map_congr_left
  intro a ha
  show byteAt buf (p + (a + 1)) = byteAt buf (p + 1 + a)
  congr 1
  omega

theorem regionBytes_one (buf : List Nat) (p : Nat) :
    regionBytes buf p 1 = [byteAt buf p] := rfl

theorem sysexFixup_first {buf : List Nat} {p len : Nat}
    (hh : byteAt buf p = 0xF0) (ht : byteAt buf (p + len - 1) = 0xF0) :
    sysexFixup buf p len = (p, (len + 65535) % 65536) := by
  simp only [sysexFixup]
  rw [if_pos ⟨hh, ht⟩]

theorem sysexFixup_middle {buf : List Nat} {p len : Nat}
    (hh : byteAt buf p = 0xF7) (ht : byteAt buf (p + len - 1) = 0xF0) :
    sysexFixup buf p len = (p + 1, (len + 65534) % 65536) := by
  simp only [sysexFixup]
  rw [if_neg (by simp [hh]), if_pos ⟨hh, ht⟩]

theorem sysexFixup_last {buf : List Nat} {p len : Nat}
    (hh : byteAt buf p = 0xF7) (ht : byteAt buf (p + len - 1) = 0xF7) :
    sysexFixup buf p len = (p + 1, (len + 65535) % 65536) := by
  simp only [sysexFixup]
  rw [if_neg (by simp [hh]), if_neg (by simp [ht]), if_pos ⟨hh, ht⟩]

theorem sysexFixup_cancelled {buf : List Nat} {p len : Nat}
    (hh : byteAt buf p = 0xF7) (ht : byteAt buf (p + len - 1) = 0xF4) :
    sysexFixup buf p len = (p, 1) := by
  simp only [sysexFixup]
  rw [if_neg (by simp [hh]), if_neg (by simp [ht]), if_neg (by simp [ht]), if_pos ⟨hh, ht⟩]

theorem sysexFixup_other {buf : List Nat} {p len : Nat}
    (h1 : ¬(byteAt buf p = 0xF0 ∧ byteAt buf (p + len - 1) = 0xF0))
    (h2 : ¬(byteAt buf p = 0xF7 ∧ byteAt buf (p + len - 1) = 0xF0))
    (h3 : ¬(byteAt buf p = 0xF7 ∧ byteAt buf (p + len - 1) = 0xF7))
    (h4 : ¬(byteAt buf p = 0xF7 ∧ byteAt buf (p + len - 1) = 0xF4)) :
    sysexFixup buf p len = (p, len) := by
  simp only [sysexFixup]
  rw [if_neg h1, if_neg h2, if_neg h3, if_neg h4]

/-- C2 (amended): for every RTP-MIDI buffer the codec accepts, the region
handed to the sink is determined from the declared payload by the head
and tail bytes: head 0xF0 and tail 0xF0 yield the payload minus the
trailing byte; head 0xF7 and tail 0xF0 yield the payload minus the
leading and trailing bytes; head 0xF7 and tail 0xF7 yield the payload
minus the leading byte; head 0xF7 and tail 0xF4 yield a single byte of
length 1, namely the leading 0xF7 escape byte, not 0xF4; any other
combination leaves the payload unchanged.  For payload F7 11 22 33 F0
the sink receives exactly 11 22 33. -/
theorem C2_sysex_fixup (buf : List Nat) (r : TRTPMIDIResult)
    (h : parseMIDIPacket buf = some r) :
    (byteAt buf (rawRegion buf).1 = 0xF0 ∧
        byteAt buf ((rawRegion buf).1 + (rawRegion buf).2 - 1) = 0xF0 →
      1 ≤ (rawRegion buf).2 →
      regionBytes buf r.payloadStart r.payloadLen =
        (regionBytes buf (rawRegion buf).1 (rawRegion buf).2).dropLast) ∧
    (byteAt buf (rawRegion buf).1 = 0xF7 ∧
        byteAt buf ((rawRegion buf).1 + (rawRegion buf).2 - 1) = 0xF0 →
      2 ≤ (rawRegion buf).2 →
      regionBytes buf r.payloadStart r.payloadLen =
        ((regionBytes buf (rawRegion buf).1 (rawRegion buf).2).drop 1).dropLast) ∧
    (byteAt buf (rawRegion buf).1 = 0xF7 ∧
        byteAt buf ((rawRegion buf).1 + (rawRegion buf).2 - 1) = 0xF7 →
      1 ≤ (rawRegion buf).2 →
      regionBytes buf r.payloadStart r.payloadLen =
        (regionBytes buf (rawRegion buf).1 (rawRegion buf).2).drop 1) ∧
    (byteAt buf (rawRegion buf).1 = 0xF7 ∧
        byteAt buf ((rawRegion buf).1 + (rawRegion buf).2 - 1) = 0xF4 →
      regionBytes buf r.payloadStart r.payloadLen = [0xF7]) ∧
    (¬(byteAt buf (rawRegion buf).1 = 0xF0 ∧
          byteAt buf ((rawRegion buf).1 + (rawRegion buf).2 - 1) = 0xF0) →
      ¬(byteAt buf (rawRegion buf).1 = 0xF7 ∧
          byteAt buf ((rawRegion buf).1 + (rawRegion buf).2 - 1) = 0xF0) →
      ¬(byteAt buf (rawRegion buf).1 = 0xF7 ∧
          byteAt buf ((rawRegion buf).1 + (rawRegion buf).2 - 1) = 0xF7) →
      ¬(byteAt buf (rawRegion buf).1 = 0xF7 ∧
          byteAt buf ((rawRegion buf).1 + (rawRegion buf).2 - 1) = 0xF4) →
      regionBytes buf r.payloadStart r.payloadLen =
        regionBytes buf (rawRegion buf).1 (rawRegion buf).2) ∧
    (parseMIDIPacket midDemoBytes = some ⟨⟨0x8061, 0, 0, 0⟩, 14, 3⟩ ∧
      regionBytes midDemoBytes 14 3 = [0x11, 0x22, 0x33]) := by
  obtain ⟨hs, hl⟩ := parseMIDIPacket_region h
  have hlt := rawRegion_len_lt buf
  refine ⟨?_, ?_, ?_, ?_, ?_, by decide, by decide⟩
  · rintro ⟨hh, ht⟩ h1
    rw [hs, hl, sysexFixup_first hh ht]
    obtain ⟨k, hk⟩ : ∃ k, (rawRegion buf).2 = k + 1 := ⟨(rawRegion buf).2 - 1, by omega⟩
    rw [hk]
    have : (k + 1 + 65535) % 65536 = k := by omega
    rw [this, regionBytes_dropLast]
  · rintro ⟨hh, ht⟩ h2
    rw [hs, hl, sysexFixup_middle hh ht]
    obtain ⟨k, hk⟩ : ∃ k, (rawRegion buf).2 = k + 2 := ⟨(rawRegion buf).2 - 2, by omega⟩
    rw [hk]
    have : (k + 2 + 65534) % 65536 = k := by omega
    rw [this, show k + 2 = (k + 1) + 1 from rfl, regionBytes_tail, regionBytes_dropLast]
  · rintro ⟨hh, ht⟩ h1
    rw [hs, hl, sysexFixup_last hh ht]
    obtain ⟨k, hk⟩ : ∃ k, (rawRegion buf).2 = k + 1 := ⟨(rawRegion buf).2 - 1, by omega⟩
    rw [hk]
    have : (k + 1 + 65535) % 65536 = k := by omega
    rw [this, regionBytes_tail]
  · rintro ⟨hh, ht⟩
    rw [hs, hl, sysexFixup_cancelled hh ht, regionBytes_one, hh]
  · intro h1 h2 h3 h4
    rw [hs, hl, sysexFixup_other h1 h2 h3 h4]

/-- C2 counterexample: the cancelled-segment payload F7 F4 is accepted with
payload region of length 1 starting at the head byte, so the sink receives
the single byte 0xF7, not the 0xF4 the claim states. -/
theorem C2_counterexample :
    parseMIDIPacket cancDemoBytes = some ⟨⟨0x8061, 0, 0, 0⟩, 13, 1⟩ ∧
    regionBytes cancDemoBytes 13 1 = [0xF7] ∧
    regionBytes cancDemoBytes 13 1 ≠ [0xF4] := by decide

/-- C2 witness: on the concrete middle-segment packet, the fixup drops the
leading 0xF7 and the trailing 0xF0. -/
theorem C2_witness :
    regionBytes midDemoBytes 14 3 =
      ((regionBytes midDemoBytes (rawRegion midDemoBytes).1 (rawRegion midDemoBytes).2).drop
        1).dropLast :=
  ((C2_sysex_fixup midDemoBytes ⟨⟨0x8061, 0, 0, 0⟩, 14, 3⟩ (by decide)).2.1
    (by decide) (by decide))

/-- C1 (amended): Reset puts the state machine back in ControlInvitation and
zeroes the nine per-session fields (initiator token, initiator SSRC, local
SSRC, last MIDI sequence number, offset estimate, last sync time, rx
sequence, last feedback sequence, last feedback time); the stored peer IP
address and the peer control and data ports are left unchanged by Reset. -/
theorem C1_reset_fields (st : Participant) :
    resetParticipant st =
      ⟨TState.ControlInvitation, st.initiatorIPAddress, st.nInitiatorControlPort,
        st.nInitiatorMIDIPort, 0, 0, 0, 0, 0, 0, 0, 0, 0⟩ := rfl

/-- C1 counterexample: Reset does not zero the peer data port: resetting a
session whose peer MIDI port is 200 leaves that field 200, not 0, so not
every per-session field listed by the claim is zero after Reset. -/
theorem C1_counterexample :
    (resetParticipant stMIDIInvDemo).state = TState.ControlInvitation ∧
    (resetParticipant stMIDIInvDemo).nInitiatorMIDIPort = 200 ∧
    (resetParticipant stMIDIInvDemo).nInitiatorMIDIPort ≠ 0 ∧
    (resetParticipant stMIDIInvDemo).nInitiatorControlPort = 100 ∧
    (resetParticipant stMIDIInvDemo).initiatorIPAddress = 1 := by decide

/-- C8: each decoder rejects any buffer whose 16-bit signature differs from
0xFFFF or whose version field differs from 2: the invitation and
end-session decoders check both, the sync decoder carries no version field
and checks the signature, and the RTP-MIDI decoder carries no signature
and checks the 2-bit version in the flags word. -/
theorem C8_signature_version (buf : List Nat) (nSize : Nat) :
    (readU16 buf 0 ≠ AppleMIDISignature ∨ readU32 buf 4 ≠ AppleMIDIVersion →
      parseInvitationPacket buf nSize = none) ∧
    (readU16 buf 0 ≠ AppleMIDISignature ∨ readU32 buf 4 ≠ AppleMIDIVersion →
      parseEndSessionPacket buf nSize = none) ∧
    (readU16 buf 0 ≠ AppleMIDISignature → parseSyncPacket buf nSize = none) ∧
    (readU16 buf 0 / 16384 % 4 ≠ RTPMIDIVersion → parseMIDIPacket buf = none) := by
  refine ⟨?_, ?_, ?_, ?_⟩
  · intro h
    unfold parseInvitationPacket
    rcases h with h | h <;> split_ifs <;> simp_all
  · intro h
    unfold parseEndSessionPacket
    rcases h with h | h <;> split_ifs <;> simp_all
  · intro h
    unfold parseSyncPacket
    split_ifs <;> simp_all
  · intro h
    unfold parseMIDIPacket
    rw [if_pos h]

/-- C8 witness: a buffer of zero bytes has signature 0 and version 0 and is
rejected by all four decoders. -/
theorem C8_witness :
    parseInvitationPacket (List.replicate 36 0) 36 = none ∧
    parseEndSessionPacket (List.replicate 36 0) 36 = none ∧
    parseSyncPacket (List.replicate 36 0) 36 = none ∧
    parseMIDIPacket (List.replicate 36 0) = none := by
  have h := C8_signature_version (List.replicate 36 0) 36
  exact ⟨h.1 (Or.inl (by decide)), h.2.1 (Or.inl (by decide)),
    h.2.2.1 (by decide), h.2.2.2 (by decide)⟩

/-- C10: ParseMIDIPacket never consults its nSize argument; it accepts the
13-byte datagram 80 61 00x10 0F (a valid RTP-MIDI header whose command
header declares a 15-byte payload) and returns the payload region
[13, 28), which extends 15 bytes past the end of the datagram. -/
theorem C10_out_of_bounds :
    parseMIDIPacket shortDemoBytes = some ⟨⟨0x8061, 0, 0, 0⟩, 13, 15⟩ ∧
    shortDemoBytes.length = 13 ∧
    shortDemoBytes.length < 13 + 15 := by decide

theorem connectedMIDIStep_sync (st : Participant) (inp : TickInput) (ck : TAppleMIDISync)
    (hp : parseSyncPacket inp.midiBuffer inp.midiResult = some ck) :
    connectedMIDIStep st inp =
      if ck.nSSRC = st.nInitiatorSSRC ∧ (ck.nCount = 0 ∨ ck.nCount = 2) then
        if ck.nCount = 0 then
          ({ st with nLastSyncTime := inp.now2 }, [Event.sendSync st.nSSRC ck.t1 inp.now1])
        else
          ({ st with
              nOffsetEstimate :=
                ((ck.t3 % U64 + ck.t1 % U64) % U64 / 2 + (U64 - ck.t2 % U64)) % U64,
              nLastSyncTime := inp.now2 }, [])
      else (st, []) := by
  have h36 := parseSyncPacket_size hp
  have hm := parseMIDIPacket_sig_none (parseSyncPacket_sig hp)
  unfold connectedMIDIStep
  rw [if_neg (by omega)]
  simp only [hm, hp]

theorem connectedMIDIStep_pres (st : Participant) (inp : TickInput) :
    (connectedMIDIStep st inp).1.nLastFeedbackSequence = st.nLastFeedbackSequence ∧
    (connectedMIDIStep st inp).1.nLastFeedbackTime = st.nLastFeedbackTime ∧
    (connectedMIDIStep st inp).1.nSSRC = st.nSSRC ∧
    (connectedMIDIStep st inp).1.state = st.state := by
  unfold connectedMIDIStep
  split_ifs with h0
  · exact ⟨rfl, rfl, rfl, rfl⟩
  · rcases hm : parseMIDIPacket inp.midiBuffer with _ | r
    · rcases hs : parseSyncPacket inp.midiBuffer inp.midiResult with _ | ck
      · simp [hm, hs]
      · simp only [hm, hs]
        split_ifs with h1 h2 <;> simp
    · simp [hm]

theorem connectedMIDIStep_no_feedback (st : Participant) (inp : TickInput) (s q : Nat) :
    Event.sendFeedback s q ∉ (connectedMIDIStep st inp).2 := by
  unfold connectedMIDIStep
  split_ifs with h0
  · simp
  · rcases hm : parseMIDIPacket inp.midiBuffer with _ | r
    · rcases hs : parseSyncPacket inp.midiBuffer inp.midiResult with _ | ck
      · simp [hm, hs]
      · simp only [hm, hs]
        split_ifs with h1 h2 <;> simp
    · simp [hm]

theorem connectedMIDIStep_no_accept (st : Participant) (inp : TickInput) (b : Bool)
    (p t s : Nat) : Event.sendAcceptInv b p t s ∉ (connectedMIDIStep st inp).2 := by
  unfold connectedMIDIStep
  split_ifs with h0
  · simp
  · rcases hm : parseMIDIPacket inp.midiBuffer with _ | r
    · rcases hs : parseSyncPacket inp.midiBuffer inp.midiResult with _ | ck
      · simp [hm, hs]
      · simp only [hm, hs]
        split_ifs with h1 h2 <;> simp
    · simp [hm]

theorem feedbackStep_pres (st : Participant) (n : Nat) :
    (feedbackStep st n).1.nOffsetEstimate = st.nOffsetEstimate ∧
    (feedbackStep st n).1.nLastSyncTime = st.nLastSyncTime ∧
    (feedbackStep st n).1.nSSRC = st.nSSRC ∧
    (feedbackStep st n).1.state = st.state := by
  unfold feedbackStep
  split_ifs <;> exact ⟨rfl, rfl, rfl, rfl⟩

theorem feedbackStep_events (st : Participant) (n : Nat) (e : Event)
    (he : e ∈ (feedbackStep st n).2) :
    e = Event.sendFeedback st.nSSRC (st.nSequence % 65536 * 65536) ∧
    ReceiverFeedbackPeriod < elapsed64 n st.nLastFeedbackTime ∧
    st.nSequence ≠ st.nLastFeedbackSequence := by
  unfold feedbackStep at he
  split_ifs at he with h1 h2
  · simp only [List.mem_singleton] at he
    exact ⟨he, h1, h2⟩
  · simp at he
  · simp at he

theorem feedbackStep_silent (st : Participant) (n : Nat)
    (hs : st.nSequence = st.nLastFeedbackSequence)
    (he : ReceiverFeedbackPeriod < elapsed64 n st.nLastFeedbackTime) :
    feedbackStep st n = ({ st with nLastFeedbackTime := n }, []) := by
  unfold feedbackStep
  rw [if_pos he, if_neg (by simp [hs])]

theorem feedbackStep_no_accept (st : Participant) (n : Nat) (b : Bool) (p t s : Nat) :
    Event.sendAcceptInv b p t s ∉ (feedbackStep st n).2 := by
  unfold feedbackStep
  split_ifs <;> simp

theorem timeoutStep_no (st : Participant) (n : Nat)
    (h : elapsed64 n st.nLastSyncTime ≤ SyncTimeout) : timeoutStep st n = st := by
  unfold timeoutStep
  exact if_neg (Nat.not_lt.mpr h)

theorem timeoutStep_state (st : Participant) (n : Nat) :
    (timeoutStep st n).state = st.state ∨
      (timeoutStep st n).state = TState.ControlInvitation := by
  unfold timeoutStep
  split_ifs
  · right; rfl
  · left; rfl

/-- C4: in the Connected state, a decoded CK frame is acted on exactly when
its sender SSRC equals the initiator SSRC and its count is 0 or 2: an
accepted frame stamps last_sync_time with the clock (answering count 0
with a count-1 sync frame and folding count 2 into the offset estimate),
while any other count or SSRC leaves the participant completely unchanged
and sends nothing. -/
theorem C4_sync_gate (st : Participant) (inp : TickInput) (ck : TAppleMIDISync)
    (hp : parseSyncPacket inp.midiBuffer inp.midiResult = some ck) :
    (ck.nSSRC = st.nInitiatorSSRC ∧ (ck.nCount = 0 ∨ ck.nCount = 2) →
      (connectedMIDIStep st inp).1.nLastSyncTime = inp.now2 ∧
      (ck.nCount = 0 → connectedMIDIStep st inp =
        ({ st with nLastSyncTime := inp.now2 },
          [Event.sendSync st.nSSRC ck.t1 inp.now1])) ∧
      (ck.nCount = 2 → connectedMIDIStep st inp =
        ({ st with
            nOffsetEstimate :=
              ((ck.t3 % U64 + ck.t1 % U64) % U64 / 2 + (U64 - ck.t2 % U64)) % U64,
            nLastSyncTime := inp.now2 }, []))) ∧
    (¬(ck.nSSRC = st.nInitiatorSSRC ∧ (ck.nCount = 0 ∨ ck.nCount = 2)) →
      connectedMIDIStep st inp = (st, [])) := by
  have hstep := connectedMIDIStep_sync st inp ck hp
  constructor
  · intro hacc
    rw [hstep, if_pos hacc]
    refine ⟨?_, ?_, ?_⟩
    · rcases hacc.2 with h0 | h2
      · rw [if_pos h0]
      · rw [if_neg (by omega)]
    · intro h0
      rw [if_pos h0]
    · intro h2
      rw [if_neg (by omega)]
  · intro hrej
    rw [hstep, if_neg hrej]

/-- C4 witness: the concrete count-0 CK frame from the initiator SSRC is
acted on: the sync time is stamped and a count-1 reply is sent. -/
theorem C4_witness :
    (connectedMIDIStep stConnDemo ck0DemoTick).1.nLastSyncTime = ck0DemoTick.now2 ∧
    connectedMIDIStep stConnDemo ck0DemoTick =
      ({ stConnDemo with nLastSyncTime := ck0DemoTick.now2 },
        [Event.sendSync stConnDemo.nSSRC 1000 ck0DemoTick.now1]) := by
  have h := (C4_sync_gate stConnDemo ck0DemoTick ⟨65535, 17227, 9, 0, 1000, 0, 0⟩
    (by decide)).1 ⟨rfl, Or.inl rfl⟩
  exact ⟨h.1, h.2.1 rfl⟩

/-- C3: in the Connected state, receipt of a count-2 CK frame from the
initiator SSRC sets the offset estimate to ((timestamp3 + timestamp1) / 2)
- timestamp2 evaluated in wrapping 64-bit unsigned arithmetic, provided
the control port carried no datagram this tick and the final timeout
check of the tick does not fire. -/
theorem C3_offset_estimate (st : Participant) (inp : TickInput) (ck : TAppleMIDISync)
    (hctl : inp.controlResult = 0)
    (hp : parseSyncPacket inp.midiBuffer inp.midiResult = some ck)
    (hssrc : ck.nSSRC = st.nInitiatorSSRC) (hcount : ck.nCount = 2)
    (hlive : elapsed64 inp.now3 inp.now2 ≤ SyncTimeout) :
    (connectedState st inp).1.nOffsetEstimate =
      ((ck.t3 % U64 + ck.t1 % U64) % U64 / 2 + (U64 - ck.t2 % U64)) % U64 := by
  have hstep := connectedMIDIStep_sync st inp ck hp
  have hm1 : connectedMIDIStep st inp =
      ({ st with
          nOffsetEstimate :=
            ((ck.t3 % U64 + ck.t1 % U64) % U64 / 2 + (U64 - ck.t2 % U64)) % U64,
          nLastSyncTime := inp.now2 }, []) := by
    rw [hstep, if_pos ⟨hssrc, Or.inr hcount⟩, if_neg (by omega)]
  unfold connectedState
  rw [if_neg (by simp [hctl])]
  simp only [hm1]
  have hfp := feedbackStep_pres
    ({ st with
        nOffsetEstimate :=
          ((ck.t3 % U64 + ck.t1 % U64) % U64 / 2 + (U64 - ck.t2 % U64)) % U64,
        nLastSyncTime := inp.now2 }) inp.now3
  have hto := timeoutStep_no
    (feedbackStep
      ({ st with
          nOffsetEstimate :=
            ((ck.t3 % U64 + ck.t1 % U64) % U64 / 2 + (U64 - ck.t2 % U64)) % U64,
          nLastSyncTime := inp.now2 }) inp.now3).1 inp.now3
    (by rw [hfp.2.1]; exact hlive)
  rw [hto, hfp.1]

/-- C3 witness: timestamps 1000/2000/1200 from the initiator yield the
offset estimate ((1200 + 1000) / 2) - 2000 wrapped in 64 bits. -/
theorem C3_witness :
    (connectedState stConnDemo ckDemoTick).1.nOffsetEstimate =
      ((1200 % U64 + 1000 % U64) % U64 / 2 + (U64 - 2000 % U64)) % U64 :=
  C3_offset_estimate stConnDemo ckDemoTick ⟨65535, 17227, 9, 2, 1000, 2000, 1200⟩
    rfl (by decide) rfl rfl (by decide)

/-- C5: in the Connected state no receiver-feedback frame is emitted on a
tick whose rx sequence (after the data-port dispatch) equals the last
acknowledged sequence; an emitted feedback frame always carries the local
SSRC and the rx sequence in the high 16 bits of its sequence word (low 16
bits zero) and only occurs more than 10000 clock units after the last
feedback time with a changed sequence; and on a quiet cadence tick the
last feedback time is still advanced to the current clock. -/
theorem C5_feedback_cadence (st : Participant) (inp : TickInput) :
    ((connectedMIDIStep st inp).1.nSequence = st.nLastFeedbackSequence →
      ∀ s q, Event.sendFeedback s q ∉ (connectedState st inp).2) ∧
    (∀ s q, Event.sendFeedback s q ∈ (connectedState st inp).2 →
      s = st.nSSRC ∧
      q = (connectedMIDIStep st inp).1.nSequence % 65536 * 65536 ∧
      ReceiverFeedbackPeriod < elapsed64 inp.now3 st.nLastFeedbackTime ∧
      (connectedMIDIStep st inp).1.nSequence ≠ st.nLastFeedbackSequence) ∧
    (¬(0 < inp.controlResult ∧ byAccepted st inp) →
      ReceiverFeedbackPeriod < elapsed64 inp.now3 st.nLastFeedbackTime →
      (connectedMIDIStep st inp).1.nSequence = st.nLastFeedbackSequence →
      elapsed64 inp.now3 (connectedMIDIStep st inp).1.nLastSyncTime ≤ SyncTimeout →
      (connectedState st inp).1.nLastFeedbackTime = inp.now3) := by
  have hpres := connectedMIDIStep_pres st inp
  by_cases hby : 0 < inp.controlResult ∧ byAccepted st inp
  · refine ⟨?_, ?_, ?_⟩
    · intro _ s q
      simp [connectedState, hby]
    · intro s q hmem
      rw [connectedState, if_pos hby] at hmem
      simp at hmem
    · intro hnby
      exact absurd hby hnby
  · have hcs : connectedState st inp =
        ((timeoutStep (feedbackStep (connectedMIDIStep st inp).1 inp.now3).1 inp.now3),
          (connectedMIDIStep st inp).2 ++
            (feedbackStep (connectedMIDIStep st inp).1 inp.now3).2) := by
      unfold connectedState
      rw [if_neg hby]
    refine ⟨?_, ?_, ?_⟩
    · intro hseq s q hmem
      rw [hcs] at hmem
      rcases List.mem_append.mp hmem with hm | hf
      · exact connectedMIDIStep_no_feedback st inp s q hm
      · have := (feedbackStep_events _ _ _ hf).2.2
        rw [hpres.1] at this
        exact this hseq
    · intro s q hmem
      rw [hcs] at hmem
      rcases List.mem_append.mp hmem with hm | hf
      · exact absurd hm (connectedMIDIStep_no_feedback st inp s q)
      · obtain ⟨heq, hel, hne⟩ := feedbackStep_events _ _ _ hf
        rw [hpres.1] at hne
        rw [hpres.2.2.1] at heq
        rw [hpres.2.1] at hel
        cases heq
        exact ⟨rfl, rfl, hel, hne⟩
    · intro _ hel hseq hlive
      rw [hcs]
      have hseq2 : (connectedMIDIStep st inp).1.nSequence =
          (connectedMIDIStep st inp).1.nLastFeedbackSequence := by
        rw [hpres.1]; exact hseq
      have hel2 : ReceiverFeedbackPeriod <
          elapsed64 inp.now3 (connectedMIDIStep st inp).1.nLastFeedbackTime := by
        rw [hpres.2.1]; exact hel
      have hfs := feedbackStep_silent (connectedMIDIStep st inp).1 inp.now3 hseq2 hel2
      rw [hfs]
      have hto := timeoutStep_no
        ({ (connectedMIDIStep st inp).1 with nLastFeedbackTime := inp.now3 }) inp.now3
        (by exact hlive)
      rw [hto]

/-- C5 witness: with rx sequence 5 unacknowledged and 20000 clock units
since the last feedback, the tick emits a feedback frame carrying the
local SSRC 42 and sequence word 0x00050000. -/
theorem C5_witness :
    42 = stConnDemo.nSSRC ∧
    327680 = (connectedMIDIStep stConnDemo quietTick).1.nSequence % 65536 * 65536 ∧
    ReceiverFeedbackPeriod < elapsed64 quietTick.now3 stConnDemo.nLastFeedbackTime ∧
    (connectedMIDIStep stConnDemo quietTick).1.nSequence ≠ stConnDemo.nLastFeedbackSequence :=
  (C5_feedback_cadence stConnDemo quietTick).2.1 42 327680 (by decide)

theorem parseInvitationPacket_encode (token ssrc : Nat) (name : List Nat)
    (h1 : token < U32) (h2 : ssrc < U32)
    (hb : ∀ b ∈ name, b ≠ 0 ∧ b < 256) (hlen : name.length ≤ 255) :
    parseInvitationPacket (encodeInvitationBytes Invitation token ssrc name)
        (encodeInvitationBytes Invitation token ssrc name).length =
      some ⟨65535, Invitation, 2, token, ssrc, name⟩ := by
  simp only [U32] at h1 h2
  have hlen2 : (encodeInvitationBytes Invitation token ssrc name).length = 17 + name.length := by
    simp [encodeInvitationBytes, u16be, u32be]
    omega
  have hname := parsedName_encode Invitation token ssrc name hb hlen
  rw [hlen2]
  simp only [parseInvitationPacket, encodeInvitationBytes, u16be, u32be, readU32, readU16,
    byteAt, AppleMIDISignature, Invitation, CommandWord, AppleMIDIVersion, List.getD,
    List.cons_append, List.nil_append, Nat.div_div_eq_div_mul]
  norm_num
  refine ⟨by omega, by omega, by omega, ?_⟩
  rw [if_pos (show (16 : Nat) < 17 + name.length by omega)]
  exact hname

theorem parseAcceptedPacket_encode (token ssrc : Nat) (name : List Nat)
    (h1 : token < U32) (h2 : ssrc < U32)
    (hb : ∀ b ∈ name, b ≠ 0 ∧ b < 256) (hlen : name.length ≤ 255) :
    parseAcceptedPacket (encodeInvitationBytes InvitationAccepted token ssrc name)
        (encodeInvitationBytes InvitationAccepted token ssrc name).length =
      some ⟨65535, InvitationAccepted, 2, token, ssrc, name⟩ := by
  simp only [U32] at h1 h2
  have hlen2 :
      (encodeInvitationBytes InvitationAccepted token ssrc name).length = 17 + name.length := by
    simp [encodeInvitationBytes, u16be, u32be]
    omega
  have hname := parsedName_encode InvitationAccepted token ssrc name hb hlen
  rw [hlen2]
  simp only [parseAcceptedPacket, encodeInvitationBytes, u16be, u32be, readU32, readU16,
    byteAt, AppleMIDISignature, InvitationAccepted, CommandWord, AppleMIDIVersion, List.getD,
    List.cons_append, List.nil_append, Nat.div_div_eq_div_mul]
  norm_num
  refine ⟨by omega, by omega, by omega, ?_⟩
  rw [if_pos (show (16 : Nat) < 17 + name.length by omega)]
  exact hname

theorem parseEndSessionPacket_encode (token ssrc : Nat)
    (h1 : token < U32) (h2 : ssrc < U32) :
    parseEndSessionPacket (encodeEndSessionBytes token ssrc)
        (encodeEndSessionBytes token ssrc).length =
      some ⟨65535, EndSession, 2, token, ssrc⟩ := by
  have hl : (encodeEndSessionBytes token ssrc).length = 16 := by
    simp [encodeEndSessionBytes, u16be, u32be]
  rw [hl]
  simp only [U32] at h1 h2
  simp only [parseEndSessionPacket, encodeEndSessionBytes, u16be, u32be, readU32, readU16,
    byteAt, AppleMIDISignature, EndSession, CommandWord, AppleMIDIVersion, List.getD,
    List.cons_append, List.nil_append, Nat.div_div_eq_div_mul]
  norm_num [Nat.div_div_eq_div_mul]
  omega

theorem parseSyncPacket_encode (ssrc c t1 t2 t3 : Nat) (h1 : ssrc < U32) (h2 : c < 256)
    (h3 : t1 < U64) (h4 : t2 < U64) (h5 : t3 < U64) :
    parseSyncPacket (encodeSyncBytes ssrc c t1 t2 t3)
        (encodeSyncBytes ssrc c t1 t2 t3).length =
      some ⟨65535, Sync, ssrc, c, t1, t2, t3⟩ := by
  have hl : (encodeSyncBytes ssrc c t1 t2 t3).length = 36 := by
    simp [encodeSyncBytes, u16be, u32be, u64be]
  rw [hl]
  simp only [U32, U64] at h1 h2 h3 h4 h5
  simp only [parseSyncPacket, encodeSyncBytes, u16be, u32be, u64be, readU64, readU32, readU16,
    byteAt, AppleMIDISignature, Sync, CommandWord, U32, U64, AppleMIDIVersion, List.getD,
    List.cons_append, List.nil_append, Nat.div_div_eq_div_mul]
  norm_num [Nat.div_div_eq_div_mul]
  omega

theorem parseFeedbackPacket_encode (ssrc seq : Nat) (h1 : ssrc < U32) (h2 : seq < U32) :
    parseFeedbackPacket (encodeFeedbackBytes ssrc seq)
        (encodeFeedbackBytes ssrc seq).length =
      some ⟨65535, ReceiverFeedback, ssrc, seq⟩ := by
  have hl : (encodeFeedbackBytes ssrc seq).length = 12 := by
    simp [encodeFeedbackBytes, u16be, u32be]
  rw [hl]
  simp only [U32] at h1 h2
  simp only [parseFeedbackPacket, encodeFeedbackBytes, u16be, u32be, readU32, readU16,
    byteAt, AppleMIDISignature, ReceiverFeedback, CommandWord, List.getD,
    List.cons_append, List.nil_append, Nat.div_div_eq_div_mul]
  norm_num [Nat.div_div_eq_div_mul]
  omega

/-- C9: decoding the serialized bytes of a well-formed IN, OK, BY, CK or RS
frame, at the serialized datagram length, yields exactly the original
frame value.  Well-formedness bounds each field to its wire width; the
name consists of at most 255 nonzero bytes, matching the clause "modulo
truncation of the name field to its bound".  The IN and BY serializers and
the OK and RS decoders are modelled from the spec layouts, since the
participant role neither sends IN/BY nor parses OK/RS; the remaining sides
are taken from the source. -/
theorem C9_roundtrip :
    (∀ token ssrc : Nat, ∀ name : List Nat, token < U32 → ssrc < U32 →
      (∀ b ∈ name, b ≠ 0 ∧ b < 256) → name.length ≤ 255 →
      parseInvitationPacket (encodeInvitationBytes Invitation token ssrc name)
          (encodeInvitationBytes Invitation token ssrc name).length =
        some ⟨65535, Invitation, 2, token, ssrc, name⟩) ∧
    (∀ token ssrc : Nat, ∀ name : List Nat, token < U32 → ssrc < U32 →
      (∀ b ∈ name, b ≠ 0 ∧ b < 256) → name.length ≤ 255 →
      parseAcceptedPacket (encodeInvitationBytes InvitationAccepted token ssrc name)
          (encodeInvitationBytes InvitationAccepted token ssrc name).length =
        some ⟨65535, InvitationAccepted, 2, token, ssrc, name⟩) ∧
    (∀ token ssrc : Nat, token < U32 → ssrc < U32 →
      parseEndSessionPacket (encodeEndSessionBytes token ssrc)
          (encodeEndSessionBytes token ssrc).length =
        some ⟨65535, EndSession, 2, token, ssrc⟩) ∧
    (∀ ssrc c t1 t2 t3 : Nat, ssrc < U32 → c < 256 → t1 < U64 → t2 < U64 → t3 < U64 →
      parseSyncPacket (encodeSyncBytes ssrc c t1 t2 t3)
          (encodeSyncBytes ssrc c t1 t2 t3).length =
        some ⟨65535, Sync, ssrc, c, t1, t2, t3⟩) ∧
    (∀ ssrc seq : Nat, ssrc < U32 → seq < U32 →
      parseFeedbackPacket (encodeFeedbackBytes ssrc seq)
          (encodeFeedbackBytes ssrc seq).length =
        some ⟨65535, ReceiverFeedback, ssrc, seq⟩) :=
  ⟨fun token ssrc name h1 h2 hb hlen => parseInvitationPacket_encode token ssrc name h1 h2 hb hlen,
    fun token ssrc name h1 h2 hb hlen => parseAcceptedPacket_encode token ssrc name h1 h2 hb hlen,
    fun token ssrc h1 h2 => parseEndSessionPacket_encode token ssrc h1 h2,
    fun ssrc c t1 t2 t3 h1 h2 h3 h4 h5 => parseSyncPacket_encode ssrc c t1 t2 t3 h1 h2 h3 h4 h5,
    fun ssrc seq h1 h2 => parseFeedbackPacket_encode ssrc seq h1 h2⟩

/-- C9 witness: a concrete CK frame with SSRC 9, count 2 and timestamps
1000/2000/1200 round-trips through the sync codec. -/
theorem C9_witness :
    parseSyncPacket (encodeSyncBytes 9 2 1000 2000 1200)
        (encodeSyncBytes 9 2 1000 2000 1200).length =
      some ⟨65535, Sync, 9, 2, 1000, 2000, 1200⟩ :=
  C9_roundtrip.2.2.2.1 9 2 1000 2000 1200 (by decide) (by decide) (by decide) (by decide)
    (by decide)

theorem stateAfter_succ (inps : List TickInput) (i : Nat) (h : i < inps.length) :
    stateAfter (inps.take (i + 1)) =
      (runTick (stateAfter (inps.take i)) (inps.getD i nilTick)).1 := by
  unfold stateAfter
  rw [List.take_succ, List.getElem?_eq_getElem h, Option.toList_some, List.foldl_append]
  rw [List.foldl_cons, List.foldl_nil]
  rw [List.getD_eq_getElem?_getD, List.getElem?_eq_getElem h, Option.getD_some]

theorem receivePhase_state (st : Participant) (inp : TickInput) :
    (receivePhase st inp).state = st.state := by
  simp only [receivePhase]
  split_ifs <;> rfl

theorem runTick_state_eq (st : Participant) (inp : TickInput) :
    runTick st inp =
      (match st.state with
        | TState.ControlInvitation => controlInvitationState (receivePhase st inp) inp
        | TState.MIDIInvitation => midiInvitationState (receivePhase st inp) inp
        | TState.Connected => connectedState (receivePhase st inp) inp) := by
  simp only [runTick, receivePhase_state]

theorem controlInvitationState_cases (st : Participant) (inp : TickInput) :
    (controlInvitationState st inp).1.state = st.state ∨
      ((controlInvitationState st inp).1.state = TState.MIDIInvitation ∧
        ∃ p t s, Event.sendAcceptInv false p t s ∈ (controlInvitationState st inp).2) := by
  unfold controlInvitationState
  rcases hp : parseInvitationPacket inp.controlBuffer inp.controlResult with _ | pkt
  · simp only [hp]
    split_ifs <;> simp
  · simp only [hp]
    split_ifs with h0 h1
    · left; rfl
    · exact Or.inr ⟨rfl, _, _, _, List.mem_singleton_self _⟩
    · left; rfl

theorem controlInvitationState_no_dataOK (st : Participant) (inp : TickInput) (p t s : Nat) :
    Event.sendAcceptInv true p t s ∉ (controlInvitationState st inp).2 := by
  unfold controlInvitationState
  rcases hp : parseInvitationPacket inp.controlBuffer inp.controlResult with _ | pkt
  · simp only [hp]
    split_ifs <;> simp
  · simp only [hp]
    split_ifs with h0 h1 <;> simp

theorem midiInvitationState_state (st : Participant) (inp : TickInput) :
    (midiInvitationState st inp).1.state = st.state ∨
      (midiInvitationState st inp).1.state = TState.Connected ∨
      (midiInvitationState st inp).1.state = TState.ControlInvitation := by
  unfold midiInvitationState
  rcases hp : parseInvitationPacket inp.midiBuffer inp.midiResult with _ | pkt
  · simp only [hp]
    split_ifs <;> simp [resetParticipant]
  · simp only [hp]
    split_ifs with h0 h1 h2
    · right; left; rfl
    · right; right; rfl
    · right; right; rfl
    · left; rfl

theorem connectedState_split (st : Participant) (inp : TickInput)
    (hby : ¬(0 < inp.controlResult ∧ byAccepted st inp)) :
    connectedState st inp =
      (timeoutStep (feedbackStep (connectedMIDIStep st inp).1 inp.now3).1 inp.now3,
        (connectedMIDIStep st inp).2 ++
          (feedbackStep (connectedMIDIStep st inp).1 inp.now3).2) := by
  unfold connectedState
  rw [if_neg hby]

theorem connectedState_state (st : Participant) (inp : TickInput) :
    (connectedState st inp).1.state = st.state ∨
      (connectedState st inp).1.state = TState.ControlInvitation := by
  by_cases hby : 0 < inp.controlResult ∧ byAccepted st inp
  · right
    simp [connectedState, hby, resetParticipant]
  · rw [connectedState_split st inp hby]
    rcases timeoutStep_state (feedbackStep (connectedMIDIStep st inp).1 inp.now3).1 inp.now3
      with ht | ht
    · left
      rw [ht, (feedbackStep_pres _ _).2.2.2, (connectedMIDIStep_pres _ _).2.2.2]
    · right
      exact ht

theorem connectedState_no_accept (st : Participant) (inp : TickInput) (b : Bool)
    (p t s : Nat) : Event.sendAcceptInv b p t s ∉ (connectedState st inp).2 := by
  by_cases hby : 0 < inp.controlResult ∧ byAccepted st inp
  · simp [connectedState, hby]
  · rw [connectedState_split st inp hby]
    intro hmem
    rcases List.mem_append.mp hmem with hm | hf
    · exact connectedMIDIStep_no_accept st inp b p t s hm
    · exact feedbackStep_no_accept _ _ b p t s hf

theorem runTick_dataOK_state (st : Participant) (inp : TickInput) (p t s : Nat)
    (h : Event.sendAcceptInv true p t s ∈ (runTick st inp).2) :
    st.state = TState.MIDIInvitation := by
  rw [runTick_state_eq] at h
  rcases hs : st.state
  · simp only [hs] at h
    exact absurd h (controlInvitationState_no_dataOK _ _ p t s)
  · rfl
  · simp only [hs] at h
    exact absurd h (connectedState_no_accept _ _ true p t s)

theorem runTick_to_midiInv (st : Participant) (inp : TickInput)
    (h : (runTick st inp).1.state = TState.MIDIInvitation) :
    (st.state = TState.ControlInvitation ∧
      ∃ p t s, Event.sendAcceptInv false p t s ∈ (runTick st inp).2) ∨
    st.state = TState.MIDIInvitation := by
  rcases hs : st.state
  · left
    refine ⟨rfl, ?_⟩
    rw [runTick_state_eq] at h ⊢
    simp only [hs] at h ⊢
    rcases controlInvitationState_cases (receivePhase st inp) inp with hc | hc
    · rw [receivePhase_state, hs] at hc
      rw [hc] at h
      exact absurd h (by simp)
    · exact hc.2
  · right; rfl
  · rw [runTick_state_eq] at h
    simp only [hs] at h
    rcases connectedState_state (receivePhase st inp) inp with hc | hc
    · rw [receivePhase_state, hs] at hc
      rw [hc] at h
      exact absurd h (by simp)
    · rw [hc] at h
      exact absurd h (by simp)

theorem midiInv_origin (inps : List TickInput) :
    ∀ i, i ≤ inps.length →
      (stateAfter (inps.take i)).state = TState.MIDIInvitation →
      ∃ j, j < i ∧
        (stateAfter (inps.take j)).state = TState.ControlInvitation ∧
        (stateAfter (inps.take (j + 1))).state = TState.MIDIInvitation ∧
        (∃ p t s, Event.sendAcceptInv false p t s ∈ eventsAt inps j) ∧
        ∀ k, j < k → k ≤ i → (stateAfter (inps.take k)).state ≠ TState.ControlInvitation := by
  intro i
  induction i with
  | zero =>
    intro _ h
    rw [List.take_zero] at h
    simp [stateAfter, initParticipant] at h
  | succ i ih =>
    intro hi h
    have hi2 : i < inps.length := by omega
    rw [stateAfter_succ inps i hi2] at h
    rcases runTick_to_midiInv _ _ h with ⟨hc, hev⟩ | hmid
    · refine ⟨i, by omega, hc, ?_, hev, ?_⟩
      · rw [stateAfter_succ inps i hi2]
        exact h
      · intro k hk1 hk2
        have hk3 : k = i + 1 := by omega
        rw [hk3, stateAfter_succ inps i hi2, h]
        simp
    · obtain ⟨j, hj, hjc, hjm, hjev, hstreak⟩ := ih (by omega) hmid
      refine ⟨j, by omega, hjc, hjm, hjev, ?_⟩
      intro k hk1 hk2
      by_cases hk3 : k ≤ i
      · exact hstreak k hk1 hk3
      · have hk4 : k = i + 1 := by omega
        rw [hk4, stateAfter_succ inps i hi2, h]
        simp

/-- C6 (amended): a data-port invitation is only ever accepted (OK emitted
on the MIDI socket) while the machine is in MIDIInvitation, which means an
earlier tick of the same session accepted a control-port invitation
(moving ControlInvitation to MIDIInvitation and emitting OK on the control
socket) and no Reset intervened; the peer check the claim also asserts
does not exist in the code: the data-port IN may come from any peer. -/
theorem C6_data_after_control (inps : List TickInput) (i : Nat) (hi : i < inps.length)
    (p t s : Nat) (h : Event.sendAcceptInv true p t s ∈ eventsAt inps i) :
    ∃ j, j < i ∧
      (stateAfter (inps.take j)).state = TState.ControlInvitation ∧
      (stateAfter (inps.take (j + 1))).state = TState.MIDIInvitation ∧
      (∃ p2 t2 s2, Event.sendAcceptInv false p2 t2 s2 ∈ eventsAt inps j) ∧
      ∀ k, j < k → k ≤ i → (stateAfter (inps.take k)).state ≠ TState.ControlInvitation := by
  have hstate : (stateAfter (inps.take i)).state = TState.MIDIInvitation :=
    runTick_dataOK_state _ _ p t s h
  exact midiInv_origin inps i (by omega) hstate

/-- C6 counterexample: the control invitation comes from peer IP 1, the
data-port invitation from peer IP 2, and the participant still accepts it,
emitting OK on the MIDI socket and entering Connected, so a data-port IN
from a different peer IS accepted. -/
theorem C6_counterexample :
    tick2demo.midiSrcIP ≠ tick1demo.controlSrcIP ∧
    (stateAfter [tick1demo]).state = TState.MIDIInvitation ∧
    Event.sendAcceptInv true 200 7 42 ∈ eventsAt [tick1demo, tick2demo] 1 ∧
    (stateAfter [tick1demo, tick2demo]).state = TState.Connected ∧
    (stateAfter [tick1demo, tick2demo]).initiatorIPAddress = 2 := by decide

/-- C6 witness: in the two-tick trace, the data-port acceptance at tick 1
is preceded by the control-port acceptance at tick 0. -/
theorem C6_witness :
    ∃ j, j < 1 ∧
      (stateAfter (([tick1demo, tick2demo]).take j)).state = TState.ControlInvitation ∧
      (stateAfter (([tick1demo, tick2demo]).take (j + 1))).state = TState.MIDIInvitation ∧
      (∃ p2 t2 s2, Event.sendAcceptInv false p2 t2 s2 ∈ eventsAt [tick1demo, tick2demo] j) ∧
      ∀ k, j < k → k ≤ 1 →
        (stateAfter (([tick1demo, tick2demo]).take k)).state ≠ TState.ControlInvitation :=
  C6_data_after_control [tick1demo, tick2demo] 1 (by decide) 200 7 42 (by decide)

/-- C7 (amended): on a failed send the handler that attempted it performs no
further mutation, so in ControlInvitation the participant keeps exactly
the state it had when the send was attempted (including the invitation
fields assigned just before) and stays in ControlInvitation without
Reset; but in MIDIInvitation a failed accept send does trigger Reset; and
in Connected the send outcomes are ignored entirely, the result of the
tick being independent of them. -/
theorem C7_send_failure (st : Participant) (inp : TickInput) :
    (inp.controlSendOk = false →
      (controlInvitationState st inp).1.state = st.state ∧
      ((controlInvitationState st inp).1 = st ∨
        ∃ pkt, parseInvitationPacket inp.controlBuffer inp.controlResult = some pkt ∧
          (controlInvitationState st inp).1 = controlAccepted st inp pkt)) ∧
    (∀ pkt, inp.midiSendOk = false → 0 < inp.midiResult →
      parseInvitationPacket inp.midiBuffer inp.midiResult = some pkt →
      midiInvitationState st inp =
        (resetParticipant st,
          [Event.sendAcceptInv true st.nInitiatorMIDIPort st.nInitiatorToken st.nSSRC])) ∧
    (∀ b1 b2 b3 b4 : Bool,
      connectedState st
          { inp with
            controlSendOk := b1
            midiSendOk := b2
            syncSendOk := b3
            feedbackSendOk := b4 } =
        connectedState st inp) := by
  refine ⟨?_, ?_, ?_⟩
  · intro hc
    unfold controlInvitationState
    rcases hp : parseInvitationPacket inp.controlBuffer inp.controlResult with _ | pkt
    · simp only [hp]
      split_ifs <;> exact ⟨rfl, Or.inl rfl⟩
    · simp only [hp]
      split_ifs with h0 h1
      · exact ⟨rfl, Or.inl rfl⟩
      · simp [hc] at h1
      · exact ⟨rfl, Or.inr ⟨pkt, rfl, rfl⟩⟩
  · intro pkt hmf hmr hp
    unfold midiInvitationState
    rw [if_pos hmr]
    simp only [hp]
    rw [if_neg (by simp [hmf])]
  · intro b1 b2 b3 b4
    rfl

/-- C7 counterexample: in MIDIInvitation a failed accept send mutates the
session: the participant is Reset (initiator SSRC 9 becomes 0, state back
to ControlInvitation), contradicting "no per-session field is mutated and
Reset is not triggered". -/
theorem C7_counterexample :
    stMIDIInvDemo.nInitiatorSSRC = 9 ∧
    midiFailTick.midiSendOk = false ∧
    (runTick stMIDIInvDemo midiFailTick).1 = resetParticipant stMIDIInvDemo ∧
    (runTick stMIDIInvDemo midiFailTick).1.nInitiatorSSRC = 0 ∧
    (runTick stMIDIInvDemo midiFailTick).1.state = TState.ControlInvitation := by decide

/-- C7 witness: the concrete failed data-port accept send Resets the
session. -/
theorem C7_witness :
    midiInvitationState stMIDIInvDemo midiFailTick =
      (resetParticipant stMIDIInvDemo,
        [Event.sendAcceptInv true stMIDIInvDemo.nInitiatorMIDIPort
          stMIDIInvDemo.nInitiatorToken stMIDIInvDemo.nSSRC]) :=
  (C7_send_failure stMIDIInvDemo midiFailTick).2.1 ⟨65535, 18766, 2, 7, 9, [65]⟩ rfl
    (by decide) (by decide)

end AppleMIDI
